import Mathlib

/-!
Shallow embedding of `src/extensions/sql-migration/src/wizard/loginSelectorPage.ts`
(the login selector page of the SQL login-migration wizard) together with proofs
of the behavioural claims about it.

Table rows are heterogeneous JavaScript arrays, so a table cell is modelled by
the dynamic type `Cell` and a missing value (JavaScript `undefined`) by
`Option Cell = none`.  String operations (`toLowerCase`, `indexOf(..) > -1`,
`===`) are modelled on `String`.  Helper collaborators that live outside the
repository sources (localized constant strings, `getLoginStatusImage`,
`getLoginStatusMessage`, the state-machine field `selectedWindowsLogins`) are
modelled from the spec and marked as such in their doc comments.
-/

namespace LoginSelector

/-- Marker icon of the target-status hyperlink cell.
Modelled from the spec: `getLoginStatusImage` (in `api/utils`, absent from the
sources) returns one of two distinct icons, one meaning the login was found on
the target and one meaning it was not. -/
inductive StatusIcon where
  | loginFoundOnTarget
  | loginNotFoundOnTarget
deriving DecidableEq

/-- A dynamic JavaScript table-cell value: the checkbox boolean, a plain
string, or the hyperlink-column cell `{ icon, title }` built for the
target-status column. -/
inductive Cell where
  | bool (b : Bool)
  | str (s : String)
  | hyperlink (icon : StatusIcon) (title : String)
deriving DecidableEq

/-- A table row as stored in `_loginTableValues` / `_systemLoginTableValues`:
a JavaScript array of cells. -/
abbrev Row := List Cell

/-- JavaScript property access `cell.title`: defined only on the hyperlink
cell; on any other value it yields `undefined` (`none`). -/
def Cell.title : Cell → Option String
  | .hyperlink _ t => some t
  | _ => none

/-- JavaScript `s.toLowerCase()`, taken at the character-list level (a
string is its list of characters): lowercases every character.  Equal to
`(String.toLower s).data` — see `toLower_data` below. -/
def lowerChars (s : String) : List Char := s.data.map Char.toLower

/-- JavaScript `v?.toLowerCase()` on a possibly-undefined cell value: yields
the lowered character list when the value is a string, `undefined`
otherwise. -/
def jsToLowerCell : Option Cell → Option (List Char)
  | some (Cell.str s) => some (lowerChars s)
  | _ => none

/-- JavaScript `field?.indexOf(searchText) > -1` on a possibly-undefined
string `field`: `false` when the field is `undefined` (because
`undefined > -1` is `false`), otherwise true exactly when `searchText` occurs
as a substring of the field. -/
def optFieldContainsLower (field : Option (List Char)) (searchText : List Char) : Bool :=
  match field with
  | some f => decide (searchText <:+: f)
  | none => false

/-- JavaScript `a?.toLowerCase() === b?.toLowerCase()` where `a`, `b` are
cell values expected to be strings: true exactly when both are strings with
equal lowerings. -/
def jsStrEqLower (a b : Option Cell) : Bool :=
  match jsToLowerCell a, jsToLowerCell b with
  | some x, some y => x == y
  | _, _ => false

/-- A source login record as returned by the login queries
(`LoginTableInfo` from `api/sqlUtils`): name, type, default database and
status, all strings. -/
structure LoginTableInfo where
  loginName : String
  loginType : String
  defaultDatabaseName : String
  status : String
deriving DecidableEq

/-- The record actually produced by `selectedLogins()` for one selected row:
each field is the raw JavaScript value read from the row, hence a
possibly-undefined cell value. -/
structure JsLoginRecord where
  loginName : Option Cell
  loginType : Option Cell
  defaultDatabaseName : Option Cell
  status : Option Cell
deriving DecidableEq

/-- Modelled from the spec: `getLoginStatusImage` (in `api/utils`, absent from
the sources) maps the login-on-target boolean to the marker icon. -/
def getLoginStatusImage (isLoginOnTarget : Bool) : StatusIcon :=
  if isLoginOnTarget then .loginFoundOnTarget else .loginNotFoundOnTarget

/-- Modelled from the spec: localized title shown when the login exists on the
target (`getLoginStatusMessage true`). -/
def loginFoundTitle : String := "Login found on target"

/-- Modelled from the spec: localized title shown when the login does not
exist on the target (`getLoginStatusMessage false`). -/
def loginNotFoundTitle : String := "Login not found on target"

/-- Modelled from the spec: `getLoginStatusMessage` (in `api/utils`, absent
from the sources) maps the login-on-target boolean to the marker title. -/
def getLoginStatusMessage (isLoginOnTarget : Bool) : String :=
  if isLoginOnTarget then loginFoundTitle else loginNotFoundTitle

/-- `_filterTableList`, lines 222-230: the filter predicate applied to one row
of the non-system login table; the row matches when one of the five text
fields (columns 1-4 and the title of the hyperlink cell in column 5) contains
the lowered search text. -/
def rowMatchesFilter (value : String) (row : Row) : Bool :=
  let searchText := lowerChars value
  optFieldContainsLower (jsToLowerCell (row.get? 1)) searchText ||
  optFieldContainsLower (jsToLowerCell (row.get? 2)) searchText ||
  optFieldContainsLower (jsToLowerCell (row.get? 3)) searchText ||
  optFieldContainsLower (jsToLowerCell (row.get? 4)) searchText ||
  optFieldContainsLower (((row.get? 5).bind Cell.title).map lowerChars) searchText

/-- `_filterTableList`, lines 220-231: the rows displayed in the non-system
login table for a given stored table and search string. -/
def filteredTableRows (loginTableValues : List Row) (value : String) : List Row :=
  if 0 < value.length then loginTableValues.filter (fun row => rowMatchesFilter value row)
  else loginTableValues

/-- `_filterSystemTableList`, lines 249-257: the filter predicate for one row
of the system login table (columns 0-3 and the title of the hyperlink cell in
column 4). -/
def systemRowMatchesFilter (value : String) (row : Row) : Bool :=
  let searchText := lowerChars value
  optFieldContainsLower (jsToLowerCell (row.get? 0)) searchText ||
  optFieldContainsLower (jsToLowerCell (row.get? 1)) searchText ||
  optFieldContainsLower (jsToLowerCell (row.get? 2)) searchText ||
  optFieldContainsLower (jsToLowerCell (row.get? 3)) searchText ||
  optFieldContainsLower (((row.get? 4).bind Cell.title).map lowerChars) searchText

/-- `_filterSystemTableList`, lines 247-258: the rows displayed in the system
login table for a given stored table and search string. -/
def filteredSystemTableRows (systemLoginTableValues : List Row) (value : String) : List Row :=
  if 0 < value.length then
    systemLoginTableValues.filter (fun row => systemRowMatchesFilter value row)
  else systemLoginTableValues

/-- `_filterTableList`, lines 233-238: the selected-row indices rebuilt after
filtering; a displayed row index is selected when some login of the selection
in effect matches the row's login name (column 1) case-insensitively. -/
def restoredSelection (selectedLogins : List JsLoginRecord) (tableRows : List Row) : List Nat :=
  (List.range tableRows.length).filter fun rowIdx =>
    selectedLogins.any fun selectedLogin =>
      jsStrEqLower selectedLogin.loginName ((tableRows.getD rowIdx []).get? 1)

/-- `_filterTableList`, lines 216-242: computes the displayed rows and the
restored selection.  `selectedList` is the optional argument; when it is
`undefined` (`none`) the current selection `currentSelection`
(`this.selectedLogins()`) is used instead — an array, even empty, is truthy in
JavaScript, so `selectedList || this.selectedLogins()` is `Option.getD`. -/
def filterTableListStep (loginTableValues : List Row) (value : String)
    (selectedList : Option (List JsLoginRecord)) (currentSelection : List JsLoginRecord) :
    List Row × List Nat :=
  let selectedLogins := selectedList.getD currentSelection
  let tableRows := filteredTableRows loginTableValues value
  (tableRows, restoredSelection selectedLogins tableRows)

/-- `_loadLoginList`, lines 659-674: the row built for one non-system source
login: checkbox (pre-selected when a previously selected login has the same
name case-insensitively), the four text fields, and the target-status
hyperlink cell whose icon and title are derived from whether some collected
target login name equals the source login name case-insensitively. -/
def buildLoginRow (selectedLogins : List JsLoginRecord) (targetLogins : List String)
    (row : LoginTableInfo) : Row :=
  let loginName := row.loginName
  let isLoginOnTarget := targetLogins.any fun targetLogin =>
    lowerChars targetLogin == lowerChars loginName
  [Cell.bool (selectedLogins.any fun selectedLogin =>
      jsToLowerCell selectedLogin.loginName == some (lowerChars loginName)),
   Cell.str loginName,
   Cell.str row.loginType,
   Cell.str row.defaultDatabaseName,
   Cell.str row.status,
   Cell.hyperlink (getLoginStatusImage isLoginOnTarget) (getLoginStatusMessage isLoginOnTarget)]

/-- `_loadLoginList`, lines 677-689: the row built for one system source
login (no checkbox column). -/
def buildSystemLoginRow (targetLogins : List String) (row : LoginTableInfo) : Row :=
  let isLoginOnTarget := targetLogins.any fun targetLogin =>
    lowerChars targetLogin == lowerChars row.loginName
  [Cell.str row.loginName,
   Cell.str row.loginType,
   Cell.str row.defaultDatabaseName,
   Cell.str row.status,
   Cell.hyperlink (getLoginStatusImage isLoginOnTarget) (getLoginStatusMessage isLoginOnTarget)]

/-- `selectedLogins()`, lines 695-709: keeps the selected row indices that are
in bounds and reads each record's fields from the row; note the source reads
`rows[rowIdx][4].title` — property `title` of the status *string* in column 4,
which is `undefined` in JavaScript. -/
def selectedLoginsImpl (rows : List Row) (selectedRowIdxs : List Nat) : List JsLoginRecord :=
  (selectedRowIdxs.filter (fun rowIdx => decide (rowIdx < rows.length))).map fun rowIdx =>
    let row := rows.getD rowIdx []
    { loginName := row.get? 1
      loginType := row.get? 2
      defaultDatabaseName := row.get? 3
      status := ((row.get? 4).bind Cell.title).map Cell.str }

/-- Modelled from the spec: the record kept by the state machine's
`_loginMigrationModel` (`models/loginMigrationModel.ts`, absent from the
sources), holding the selection and the collected login lists that this page
reads and writes. -/
structure LoginMigrationModel where
  loginsForMigration : List JsLoginRecord
  collectedSourceLogins : Bool
  collectedTargetLogins : Bool
  loginsOnSource : List LoginTableInfo
  systemLoginsOnSource : List LoginTableInfo
  loginsOnTarget : List String
deriving DecidableEq

/-- Modelled from the spec: the login type string of windows logins, used by
the state machine to classify selected logins. -/
def windowsLoginType : String := "WindowsLogin"

/-- Modelled from the spec: the state machine's `selectedWindowsLogins` flag
(`models/loginMigrationModel.ts`, absent from the sources): whether the
current selection of logins for migration includes windows logins. -/
def LoginMigrationModel.selectedWindowsLogins (m : LoginMigrationModel) : Bool :=
  m.loginsForMigration.any fun login => login.loginType == some (Cell.str windowsLoginType)

/-- Severity of a wizard message (`azdata.window.MessageLevel`). -/
inductive MessageLevel where
  | information
  | error
deriving DecidableEq

/-- A wizard-level message (`this.wizard.message`). -/
structure WizardMessage where
  level : MessageLevel
  text : String
  description : Option String := none
deriving DecidableEq

/-- Style of the refresh-results info box. -/
inductive InfoBoxStyle where
  | information
  | success
  | error
deriving DecidableEq

/-- The UI state touched by the refresh error handlers: the refresh loading
spinner, the refresh-results info box and the wizard message. -/
structure RefreshUI where
  refreshLoading : Bool
  infoBoxStyle : InfoBoxStyle
  infoBoxText : String
  wizardMessage : WizardMessage
deriving DecidableEq

/-- A thrown JavaScript error, of which the handlers read `error.message`. -/
structure JsError where
  message : String
deriving DecidableEq

/-- Observable side effects of one run of `_getSourceLogins` /
`_getTargetLogins`: invoking a login query, logging an error, or sending a
telemetry error event (with the error name it carries). -/
inductive RefreshEvent where
  | sourceQueryInvoked
  | targetQueryInvoked
  | logErrorEvent (errorName : String)
  | telemetryErrorEvent (errorName : String)
deriving DecidableEq

/-- Is the event a telemetry error event (`sendSqlMigrationActionEvent` with
`TelemetryAction.LoginMigrationError`)? -/
def RefreshEvent.isTelemetryError : RefreshEvent → Bool
  | .telemetryErrorEvent _ => true
  | _ => false

/-- Error name `CollectingSourceLoginsFailed` from
`models/loginMigrationModel.ts`. -/
def CollectingSourceLoginsFailed : String := "CollectingSourceLoginsFailed"

/-- Error name `CollectingTargetLoginsFailed` from
`models/loginMigrationModel.ts`. -/
def CollectingTargetLoginsFailed : String := "CollectingTargetLoginsFailed"

/-- Modelled from the spec: localized constant
`LOGIN_MIGRATION_REFRESH_SOURCE_LOGIN_DATA_FAILED` (`constants/strings.ts`,
absent from the sources). -/
def LOGIN_MIGRATION_REFRESH_SOURCE_LOGIN_DATA_FAILED : String :=
  "Refreshing source login data failed"

/-- Modelled from the spec: localized constant
`LOGIN_MIGRATION_REFRESH_TARGET_LOGIN_DATA_FAILED` (`constants/strings.ts`,
absent from the sources). -/
def LOGIN_MIGRATION_REFRESH_TARGET_LOGIN_DATA_FAILED : String :=
  "Refreshing target login data failed"

/-- Modelled from the spec: localized constant
`LOGIN_MIGRATIONS_GET_LOGINS_ERROR_TITLE(loginType)` (`constants/strings.ts`,
absent from the sources). -/
def LOGIN_MIGRATIONS_GET_LOGINS_ERROR_TITLE (loginKind : String) : String :=
  "An error occurred while collecting the " ++ loginKind ++ " logins"

/-- Modelled from the spec: localized constant
`LOGIN_MIGRATIONS_GET_LOGINS_ERROR(message)` (`constants/strings.ts`, absent
from the sources); it embeds the thrown error's message. -/
def LOGIN_MIGRATIONS_GET_LOGINS_ERROR (message : String) : String :=
  "Error details: " ++ message

/-- Word used by `_getSourceLogins` for the error title argument. -/
def sourceWord : String := "source"

/-- Word used by `_getTargetLogins` for the error title argument. -/
def targetWord : String := "target"

/-- `_getSourceLogins`, lines 547-575: runs the source login query inside
`try/catch`.  The query's outcome is the `queryResult` argument; on a throw
the handler stops the spinner, sets the info box to an error, sets the wizard
message from the error's message, logs the error and sends one telemetry
error event.  The function is total in the state — the exception is never
re-thrown to the caller. -/
def getSourceLoginsStep (queryResult : Except JsError Unit) (ui : RefreshUI) :
    RefreshUI × List RefreshEvent :=
  match queryResult with
  | .ok _ => (ui, [.sourceQueryInvoked])
  | .error error =>
    ({ ui with
        refreshLoading := false
        infoBoxStyle := .error
        infoBoxText := LOGIN_MIGRATION_REFRESH_SOURCE_LOGIN_DATA_FAILED
        wizardMessage :=
          { level := .error
            text := LOGIN_MIGRATIONS_GET_LOGINS_ERROR_TITLE sourceWord
            description := some (LOGIN_MIGRATIONS_GET_LOGINS_ERROR error.message) } },
     [.sourceQueryInvoked,
      .logErrorEvent CollectingSourceLoginsFailed,
      .telemetryErrorEvent CollectingSourceLoginsFailed])

/-- `_getTargetLogins`, lines 577-619: when the target instance is set, runs
the target login query inside `try/catch`; on success records the collected
logins in the state machine, on a throw behaves like the source handler (with
the target-side constants) and leaves the state machine unchanged.  The
function is total in the state — the exception is never re-thrown. -/
def getTargetLoginsStep (targetInstanceSet : Bool)
    (queryResult : Except JsError (List String))
    (lm : LoginMigrationModel) (ui : RefreshUI) :
    (LoginMigrationModel × RefreshUI) × List RefreshEvent :=
  if targetInstanceSet then
    match queryResult with
    | .ok newTargetLogins =>
      (({ lm with collectedTargetLogins := true, loginsOnTarget := newTargetLogins }, ui),
       [.targetQueryInvoked])
    | .error error =>
      ((lm,
        { ui with
            refreshLoading := false
            infoBoxStyle := .error
            infoBoxText := LOGIN_MIGRATION_REFRESH_TARGET_LOGIN_DATA_FAILED
            wizardMessage :=
              { level := .error
                text := LOGIN_MIGRATIONS_GET_LOGINS_ERROR_TITLE targetWord
                description := some (LOGIN_MIGRATIONS_GET_LOGINS_ERROR error.message) } }),
       [.targetQueryInvoked,
        .logErrorEvent CollectingTargetLoginsFailed,
        .telemetryErrorEvent CollectingTargetLoginsFailed])
  else ((lm, ui), [])

/-- Modelled from the spec: localized constant
`SELECT_LOGIN_AND_RUN_VALIDATION_TO_CONTINUE` (`constants/strings.ts`). -/
def SELECT_LOGIN_AND_RUN_VALIDATION_TO_CONTINUE : String :=
  "Select logins and run validation to continue"

/-- Modelled from the spec: localized constant `ENTER_ENTRA_ID`
(`constants/strings.ts`). -/
def ENTER_ENTRA_ID : String := "Enter the Entra domain name to continue"

/-- Modelled from the spec: localized constant `ENTRA_DOMAIN_NOT_VALIDATED`
(`constants/strings.ts`). -/
def ENTRA_DOMAIN_NOT_VALIDATED : String := "The Entra domain name has not been validated"

/-- Modelled from the spec: localized constant `VALIDATE_ALL_LOGINS`
(`constants/strings.ts`). -/
def VALIDATE_ALL_LOGINS : String := "Run validation on all selected logins to continue"

/-- Modelled from the spec: localized constant `SELECT_LOGIN_TO_CONTINUE`
(`constants/strings.ts`). -/
def SELECT_LOGIN_TO_CONTINUE : String := "Select logins to continue"

/-- Modelled from the spec: localized constant `LOGINS_SELECTED(n, total)`
(`constants/strings.ts`). -/
def LOGINS_SELECTED (selectedCount rowCount : Nat) : String :=
  toString selectedCount ++ " of " ++ toString rowCount ++ " logins selected"

/-- Modelled from the spec: localized constant `LOGIN_MIGRATE_BUTTON_TEXT`
(`constants/strings.ts`). -/
def LOGIN_MIGRATE_BUTTON_TEXT : String := "Migrate"

/-- Modelled from the spec: localized constant `NEXT_LABEL`
(`constants/strings.ts`). -/
def NEXT_LABEL : String := "Next"

/-- The empty wizard message installed at the top of the navigation
validator. -/
def emptyErrorMessage : WizardMessage :=
  { level := .error, text := "" }

/-- JavaScript `Set<string>.has(v)` on a dynamic value `v`: membership holds
only when `v` is a string contained in the set (no coercions, exact
case-sensitive comparison). -/
def jsSetHas (validatedLogins : List String) : Option Cell → Bool
  | some (Cell.str n) => validatedLogins.contains n
  | _ => false

/-- The page state read by the navigation validator registered in
`onPageEnter`: the non-system table contents and selection (from which
`this.selectedLogins()` is computed), the target-validated flag, the state
machine's login-migration model, the entered Entra domain name
(`_aadDomainName`, the empty string when nothing was entered), the last
successfully validated domain (`_successfullyValidatedEntraDomain`, which is
`undefined` until a windows-login validation succeeds) and the set of
successfully validated login names. -/
structure NavigatorState where
  tableData : List Row
  selectedRows : List Nat
  isLoginMigrationTargetValidated : Bool
  loginMig : LoginMigrationModel
  aadDomainName : String
  successfullyValidatedEntraDomain : Option String
  successfullyValidatedLogins : List String
deriving DecidableEq

/-- `this.selectedLogins()` as evaluated by the validator. -/
def selectedLoginsOf (st : NavigatorState) : List JsLoginRecord :=
  selectedLoginsImpl st.tableData st.selectedRows

/-- `_isAllSelectedLoginsValidated`, lines 543-545: every selected login's
name is in the set of successfully validated logins. -/
def isAllSelectedLoginsValidated (st : NavigatorState) : Bool :=
  (selectedLoginsOf st).all fun login =>
    jsSetHas st.successfullyValidatedLogins login.loginName

/-- The navigation validator registered in `onPageEnter`, lines 89-132:
clears the wizard message, always allows backward navigation, and for forward
navigation checks in order: a non-empty selection with a validated target,
then (when windows logins are selected) a truthy Entra domain name equal to
the last successfully validated one, then that all selected logins were
validated.  Returns the verdict together with the wizard message it leaves
behind. -/
def navigationValidator (st : NavigatorState) (newPage lastPage : Nat) :
    Bool × WizardMessage :=
  if newPage < lastPage then (true, emptyErrorMessage)
  else if (selectedLoginsOf st).length == 0 || !st.isLoginMigrationTargetValidated then
    (false, { level := .error, text := SELECT_LOGIN_AND_RUN_VALIDATION_TO_CONTINUE })
  else if st.loginMig.selectedWindowsLogins && st.aadDomainName == "" then
    (false, { level := .error, text := ENTER_ENTRA_ID })
  else if st.loginMig.selectedWindowsLogins &&
      !(st.successfullyValidatedEntraDomain == some st.aadDomainName) then
    (false, { level := .error, text := ENTRA_DOMAIN_NOT_VALIDATED })
  else if !(isAllSelectedLoginsValidated st) then
    (false, { level := .error, text := VALIDATE_ALL_LOGINS })
  else (true, emptyErrorMessage)

/-- One observable step of `_loadLoginList`: marking the refresh as started,
starting/finishing one of the two fetches, rebuilding the tables, marking the
refresh as complete. -/
inductive LoadEvent where
  | markRefreshStart
  | sourceFetchStart
  | sourceFetchEnd
  | targetFetchStart
  | targetFetchEnd
  | buildTables
  | markRefreshComplete
deriving DecidableEq

/-- `_loadLoginList`, lines 637-693, as the sequence of its observable steps:
the source fetch runs when the caller asked for a query or the source logins
were never collected, then (sequentially, because each `await` completes
before the next statement) the target fetch under the analogous condition,
then the tables are rebuilt and the refresh is marked complete. -/
def loadLoginListTrace (runQuery collectedSourceLogins collectedTargetLogins : Bool) :
    List LoadEvent :=
  (if runQuery || !collectedSourceLogins then
    [LoadEvent.markRefreshStart, LoadEvent.sourceFetchStart, LoadEvent.sourceFetchEnd]
   else []) ++
  (if runQuery || !collectedTargetLogins then
    [LoadEvent.markRefreshStart, LoadEvent.targetFetchStart, LoadEvent.targetFetchEnd]
   else []) ++
  [LoadEvent.buildTables, LoadEvent.markRefreshComplete]

/-- Whether the validate-click handler opened the pre-migration validation
dialog. -/
inductive DialogAction where
  | noDialog
  | openedValidationDialog
deriving DecidableEq

/-- `_validateLoginPreMigration`, lines 758-773: when no logins are selected
for migration, sets the wizard error message and returns without opening the
dialog; otherwise opens the validation dialog, leaving the wizard message
untouched. -/
def validateLoginPreMigrationClick (loginsForMigration : List JsLoginRecord)
    (message : WizardMessage) : WizardMessage × DialogAction :=
  if loginsForMigration.length ≤ 0 then
    ({ level := .error, text := SELECT_LOGIN_TO_CONTINUE }, .noDialog)
  else (message, .openedValidationDialog)

/-- The page state touched by the selection and lifecycle handlers: the
state machine's login-migration model, the non-system table contents and
selection, the login-count label, the Entra input container display flag, the
login table height, the page-currency flag, the next button and the validate
custom button. -/
structure SelectionUIState where
  loginMig : LoginMigrationModel
  tableData : List Row
  selectedRows : List Nat
  loginCountText : String
  aadContainerDisplayed : Bool
  loginTableHeight : Nat
  isCurrentPage : Bool
  nextButtonEnabled : Bool
  nextButtonLabel : String
  validateButtonHidden : Bool
deriving DecidableEq

/-- `refreshAADInputBox`, lines 711-716: displays the Entra domain-name input
container exactly when windows logins are selected, and sets the login table
height to 600 when it is shown and 650 when it is hidden. -/
def refreshAADInputBoxStep (st : SelectionUIState) : SelectionUIState :=
  let selectedWindowsLogins := st.loginMig.selectedWindowsLogins
  { st with
      aadContainerDisplayed := selectedWindowsLogins
      loginTableHeight := if selectedWindowsLogins then 600 else 650 }

/-- `updateNextButton`, lines 788-794: only when this page is current, sets
the next button's label to the migrate label and enables it exactly when some
logins are selected for migration. -/
def updateNextButtonStep (st : SelectionUIState) : SelectionUIState :=
  if st.isCurrentPage then
    { st with
        nextButtonLabel := LOGIN_MIGRATE_BUTTON_TEXT
        nextButtonEnabled := decide (0 < st.loginMig.loginsForMigration.length) }
  else st

/-- `resetNextButton`, lines 796-799. -/
def resetNextButtonStep (st : SelectionUIState) : SelectionUIState :=
  { st with nextButtonLabel := NEXT_LABEL, nextButtonEnabled := true }

/-- `updateValuesOnSelection`, lines 775-786: recomputes the selected logins
from the table, updates the login-count label, stores the selection in the
state machine, refreshes the Entra input box and updates the next button. -/
def updateValuesOnSelectionStep (st : SelectionUIState) : SelectionUIState :=
  let selectedLogins := selectedLoginsImpl st.tableData st.selectedRows
  let st1 := { st with
    loginCountText := LOGINS_SELECTED selectedLogins.length st.tableData.length
    loginMig := { st.loginMig with loginsForMigration := selectedLogins } }
  updateNextButtonStep (refreshAADInputBoxStep st1)

/-- `onPageEnter`, lines 78-139, restricted to the fields of
`SelectionUIState`: shows the validate custom button, marks the page current
and updates the next button.  (The method additionally registers the
navigation validator — modelled by `navigationValidator` — and triggers a
table refresh, which touches no field modelled here.) -/
def onPageEnterStep (st : SelectionUIState) : SelectionUIState :=
  updateNextButtonStep { st with validateButtonHidden := false, isCurrentPage := true }

/-- `onPageLeave`, lines 141-150: hides the validate custom button, registers
a pass-through validator, marks the page not current and resets the next
button. -/
def onPageLeaveStep (st : SelectionUIState) : SelectionUIState :=
  resetNextButtonStep { st with validateButtonHidden := true, isCurrentPage := false }

/-- Specification-side predicate: `searchText` occurs in `field` under
case-insensitive comparison. -/
def ContainsCaseInsensitive (field searchText : String) : Prop :=
  lowerChars searchText <:+: lowerChars field

/-- Concrete login name used in the evaluation fixtures. -/
def sampleLoginName : String := "sa"

/-- Concrete login type used in the evaluation fixtures. -/
def sampleLoginType : String := "SqlLogin"

/-- Concrete default database used in the evaluation fixtures. -/
def sampleDefaultDb : String := "master"

/-- Concrete login status used in the evaluation fixtures. -/
def sampleStatus : String := "Enabled"

/-- A concrete source login record used in the evaluation fixtures. -/
def sampleSourceLogin : LoginTableInfo :=
  { loginName := sampleLoginName
    loginType := sampleLoginType
    defaultDatabaseName := sampleDefaultDb
    status := sampleStatus }

/-- A concrete non-system table row built from the sample login with nothing
previously selected and no target logins. -/
def witnessRow : Row := buildLoginRow [] [] sampleSourceLogin

/-- A concrete login-migration model with nothing selected and everything
already collected. -/
def witnessLoginMig : LoginMigrationModel :=
  { loginsForMigration := []
    collectedSourceLogins := true
    collectedTargetLogins := true
    loginsOnSource := [sampleSourceLogin]
    systemLoginsOnSource := []
    loginsOnTarget := [] }

/-- A concrete validator state in which forward navigation is allowed: one
selected row whose login name was successfully validated, a validated target
and no windows logins selected. -/
def witnessNavState : NavigatorState :=
  { tableData := [witnessRow]
    selectedRows := [0]
    isLoginMigrationTargetValidated := true
    loginMig := witnessLoginMig
    aadDomainName := ""
    successfullyValidatedEntraDomain := none
    successfullyValidatedLogins := [sampleLoginName] }

/-- A concrete wizard message used in the evaluation fixtures. -/
def witnessMessage : WizardMessage :=
  { level := MessageLevel.information, text := "" }

/-- The selected-login record produced for `witnessRow`. -/
def witnessSelectedRecord : JsLoginRecord :=
  { loginName := some (Cell.str sampleLoginName)
    loginType := some (Cell.str sampleLoginType)
    defaultDatabaseName := some (Cell.str sampleDefaultDb)
    status := none }

/-- A concrete selection/lifecycle page state used in the evaluation
fixtures. -/
def witnessSelectionState : SelectionUIState :=
  { loginMig := witnessLoginMig
    tableData := [witnessRow]
    selectedRows := [0]
    loginCountText := ""
    aadContainerDisplayed := false
    loginTableHeight := 600
    isCurrentPage := true
    nextButtonEnabled := false
    nextButtonLabel := NEXT_LABEL
    validateButtonHidden := true }

theorem toLower_data (s : String) : s.toLower.data = lowerChars s := by
  rw [String.toLower, String.map_eq, lowerChars]

theorem toLower_eq_iff (a b : String) : a.toLower = b.toLower ↔ lowerChars a = lowerChars b := by
  rw [String.ext_iff, toLower_data, toLower_data]

theorem lowerChars_empty : lowerChars "" = [] := rfl

theorem eq_empty_of_length_eq_zero {s : String} (h : s.length = 0) : s = "" := by
  cases s with
  | mk data =>
    cases data with
    | nil => rfl
    | cons c cs => simp [String.length] at h

theorem rowMatchesFilter_literal (s : String) (b : Bool) (n t d st ti : String)
    (ic : StatusIcon) :
    rowMatchesFilter s
        [Cell.bool b, Cell.str n, Cell.str t, Cell.str d, Cell.str st, Cell.hyperlink ic ti]
      = true ↔
      (ContainsCaseInsensitive n s ∨ ContainsCaseInsensitive t s ∨
       ContainsCaseInsensitive d s ∨ ContainsCaseInsensitive st s ∨
       ContainsCaseInsensitive ti s) := by
  simp [rowMatchesFilter, jsToLowerCell, optFieldContainsLower, Cell.title,
    ContainsCaseInsensitive, or_assoc]

theorem systemRowMatchesFilter_literal (s : String) (n t d st ti : String)
    (ic : StatusIcon) :
    systemRowMatchesFilter s
        [Cell.str n, Cell.str t, Cell.str d, Cell.str st, Cell.hyperlink ic ti]
      = true ↔
      (ContainsCaseInsensitive n s ∨ ContainsCaseInsensitive t s ∨
       ContainsCaseInsensitive d s ∨ ContainsCaseInsensitive st s ∨
       ContainsCaseInsensitive ti s) := by
  simp [systemRowMatchesFilter, jsToLowerCell, optFieldContainsLower, Cell.title,
    ContainsCaseInsensitive, or_assoc]

theorem containsCaseInsensitive_empty (f : String) : ContainsCaseInsensitive f "" := by
  simp [ContainsCaseInsensitive, lowerChars_empty]

theorem filteredTableRows_empty (vals : List Row) : filteredTableRows vals "" = vals := by
  simp [filteredTableRows]

theorem filteredSystemTableRows_empty (vals : List Row) :
    filteredSystemTableRows vals "" = vals := by
  simp [filteredSystemTableRows]

/-- Claim C1: for every search string `s`, the non-system login filter
`_filterTableList` displays exactly the stored rows one of whose five text
fields (source login name, login type, default database, status,
target-status title) contains `s` as a substring case-insensitively, and when
`s` is empty every stored row is displayed; the system-login filter
`_filterSystemTableList` satisfies the same property over its five columns. -/
theorem filterTableList_shows_substring_matches
    (vals sysVals : List Row) (s : String) (b : Bool)
    (n t d st ti : String) (ic : StatusIcon) :
    filteredTableRows vals "" = vals ∧
    filteredSystemTableRows sysVals "" = sysVals ∧
    ([Cell.bool b, Cell.str n, Cell.str t, Cell.str d, Cell.str st, Cell.hyperlink ic ti] ∈
        filteredTableRows vals s ↔
      [Cell.bool b, Cell.str n, Cell.str t, Cell.str d, Cell.str st, Cell.hyperlink ic ti] ∈
          vals ∧
        (ContainsCaseInsensitive n s ∨ ContainsCaseInsensitive t s ∨
         ContainsCaseInsensitive d s ∨ ContainsCaseInsensitive st s ∨
         ContainsCaseInsensitive ti s)) ∧
    ([Cell.str n, Cell.str t, Cell.str d, Cell.str st, Cell.hyperlink ic ti] ∈
        filteredSystemTableRows sysVals s ↔
      [Cell.str n, Cell.str t, Cell.str d, Cell.str st, Cell.hyperlink ic ti] ∈ sysVals ∧
        (ContainsCaseInsensitive n s ∨ ContainsCaseInsensitive t s ∨
         ContainsCaseInsensitive d s ∨ ContainsCaseInsensitive st s ∨
         ContainsCaseInsensitive ti s)) := by
  refine ⟨filteredTableRows_empty vals, filteredSystemTableRows_empty sysVals, ?_, ?_⟩
  · by_cases hs : 0 < s.length
    · rw [filteredTableRows, if_pos hs, List.mem_filter, rowMatchesFilter_literal]
    · have hempty : s = "" := eq_empty_of_length_eq_zero (by omega)
      subst hempty
      rw [filteredTableRows_empty]
      have hci := containsCaseInsensitive_empty n
      tauto
  · by_cases hs : 0 < s.length
    · rw [filteredSystemTableRows, if_pos hs, List.mem_filter,
        systemRowMatchesFilter_literal]
    · have hempty : s = "" := eq_empty_of_length_eq_zero (by omega)
      subst hempty
      rw [filteredSystemTableRows_empty]
      have hci := containsCaseInsensitive_empty n
      tauto

/-- Claim C2 (divergence witness): at a concrete table built by
`_loadLoginList` from one source login with status `Enabled` and with row 0
selected, `selectedLogins` returns the row's login name, login type and
default database, but its `status` field is `undefined` (`none`): the source
reads `rows[rowIdx][4].title`, the `title` property of the status *string*
stored in column 4, rather than the status itself. -/
theorem selectedLogins_status_undefined_at_sample :
    selectedLoginsImpl [buildLoginRow [] [] sampleSourceLogin] [0] =
      [{ loginName := some (Cell.str sampleLoginName)
         loginType := some (Cell.str sampleLoginType)
         defaultDatabaseName := some (Cell.str sampleDefaultDb)
         status := none }] ∧
    (buildLoginRow [] [] sampleSourceLogin).get? 4 = some (Cell.str sampleStatus) := by
  constructor <;> rfl

theorem statusMarker_eq_true_iff (b : Bool) :
    (getLoginStatusImage b = getLoginStatusImage true ∧
     getLoginStatusMessage b = getLoginStatusMessage true) ↔ b = true := by
  cases b
  · simp [getLoginStatusImage, getLoginStatusMessage]
  · simp

/-- Claim C5: for every source login row built by `_loadLoginList`, in both
the non-system and the system login tables, the target-status cell carries
the exists-on-target marker (the icon and title produced for `true`) exactly
when some collected target login name equals the source login name under
case-insensitive comparison. -/
theorem target_status_marker_iff_login_on_target
    (selL : List JsLoginRecord) (tgtL : List String) (row : LoginTableInfo) :
    ((buildLoginRow selL tgtL row).get? 5 =
        some (Cell.hyperlink (getLoginStatusImage true) (getLoginStatusMessage true)) ↔
      ∃ tl ∈ tgtL, tl.toLower = row.loginName.toLower) ∧
    ((buildSystemLoginRow tgtL row).get? 4 =
        some (Cell.hyperlink (getLoginStatusImage true) (getLoginStatusMessage true)) ↔
      ∃ tl ∈ tgtL, tl.toLower = row.loginName.toLower) := by
  constructor
  · simp [buildLoginRow, statusMarker_eq_true_iff, toLower_eq_iff]
  · simp [buildSystemLoginRow, statusMarker_eq_true_iff, toLower_eq_iff]

theorem message_isInfix_getLoginsError (m : String) :
    m.data <:+: (LOGIN_MIGRATIONS_GET_LOGINS_ERROR m).data := by
  rw [LOGIN_MIGRATIONS_GET_LOGINS_ERROR, String.data_append]
  exact (List.suffix_append _ _).isInfix

/-- Claim C3: when the source-login query or the target-login query throws
during a refresh, the exception is not propagated (the handlers
`getSourceLoginsStep` and `getTargetLoginsStep` are total functions into the
plain state, with no error result): the handler sets the refresh info box to
the `error` style with a failure text, sets a wizard-level error message
whose description contains the thrown error's message, emits a log-error
event and exactly one telemetry error event, and invokes the failed query
exactly once (no retry). -/
theorem login_query_failure_handled_locally (e : JsError) (ui : RefreshUI)
    (lm : LoginMigrationModel) :
    ((getSourceLoginsStep (Except.error e) ui).1.infoBoxStyle = InfoBoxStyle.error ∧
     (getSourceLoginsStep (Except.error e) ui).1.infoBoxText =
       LOGIN_MIGRATION_REFRESH_SOURCE_LOGIN_DATA_FAILED ∧
     (getSourceLoginsStep (Except.error e) ui).1.wizardMessage.level = MessageLevel.error ∧
     (getSourceLoginsStep (Except.error e) ui).1.wizardMessage.description =
       some (LOGIN_MIGRATIONS_GET_LOGINS_ERROR e.message) ∧
     e.message.data <:+: (LOGIN_MIGRATIONS_GET_LOGINS_ERROR e.message).data ∧
     RefreshEvent.logErrorEvent CollectingSourceLoginsFailed ∈
       (getSourceLoginsStep (Except.error e) ui).2 ∧
     ((getSourceLoginsStep (Except.error e) ui).2.filter
       RefreshEvent.isTelemetryError).length = 1 ∧
     (getSourceLoginsStep (Except.error e) ui).2.count RefreshEvent.sourceQueryInvoked = 1) ∧
    ((getTargetLoginsStep true (Except.error e) lm ui).1.2.infoBoxStyle =
       InfoBoxStyle.error ∧
     (getTargetLoginsStep true (Except.error e) lm ui).1.2.infoBoxText =
       LOGIN_MIGRATION_REFRESH_TARGET_LOGIN_DATA_FAILED ∧
     (getTargetLoginsStep true (Except.error e) lm ui).1.2.wizardMessage.level =
       MessageLevel.error ∧
     (getTargetLoginsStep true (Except.error e) lm ui).1.2.wizardMessage.description =
       some (LOGIN_MIGRATIONS_GET_LOGINS_ERROR e.message) ∧
     RefreshEvent.logErrorEvent CollectingTargetLoginsFailed ∈
       (getTargetLoginsStep true (Except.error e) lm ui).2 ∧
     ((getTargetLoginsStep true (Except.error e) lm ui).2.filter
       RefreshEvent.isTelemetryError).length = 1 ∧
     (getTargetLoginsStep true (Except.error e) lm ui).2.count RefreshEvent.targetQueryInvoked = 1) := by
  refine ⟨⟨rfl, rfl, rfl, rfl, message_isInfix_getLoginsError e.message, ?_, rfl, rfl⟩,
    ⟨rfl, rfl, rfl, rfl, ?_, rfl, rfl⟩⟩
  · simp [getSourceLoginsStep]
  · simp [getTargetLoginsStep]

/-- Claim C4: the navigation validator registered on page entry always
permits backward navigation (`newPage < lastPage`); and whenever it permits
forward navigation, at least one login is selected, the login-migration
target has been validated, every selected login's name is in the set of
successfully validated logins, and, when windows logins are selected, a
non-empty Entra domain name equal to the last successfully validated domain
has been entered. -/
theorem navigation_validator_gates_forward (st : NavigatorState) (newPage lastPage : Nat) :
    (newPage < lastPage → (navigationValidator st newPage lastPage).1 = true) ∧
    (lastPage ≤ newPage → (navigationValidator st newPage lastPage).1 = true →
      (selectedLoginsOf st).length ≠ 0 ∧
      st.isLoginMigrationTargetValidated = true ∧
      (∀ login ∈ selectedLoginsOf st,
        jsSetHas st.successfullyValidatedLogins login.loginName = true) ∧
      (st.loginMig.selectedWindowsLogins = true →
        st.aadDomainName ≠ "" ∧
        st.successfullyValidatedEntraDomain = some st.aadDomainName)) := by
  constructor
  · intro h
    rw [navigationValidator, if_pos h]
  · intro hge htrue
    rw [navigationValidator, if_neg (by omega)] at htrue
    split_ifs at htrue with h1 h2 h3 h4
    simp at htrue
    simp only [Bool.or_eq_true, not_or, beq_iff_eq, Bool.not_eq_true',
      Bool.not_eq_false] at h1
    simp only [Bool.and_eq_true, not_and, beq_iff_eq, Bool.not_eq_true'] at h2 h3
    simp only [Bool.not_eq_true', Bool.not_eq_false] at h4
    refine ⟨h1.1, h1.2, ?_, ?_⟩
    · rw [isAllSelectedLoginsValidated, List.all_eq_true] at h4
      exact fun login hm => h4 login hm
    · intro hw
      refine ⟨h2 hw, ?_⟩
      have h3w := h3 hw
      simpa [beq_iff_eq] using h3w

/-- Witness for C4: at the concrete state `witnessNavState` the validator
permits backward navigation from page 0 to page 1, and at (1,1) it permits
forward navigation, so the gate conditions hold there. -/
theorem navigation_validator_gates_forward_witness :
    (navigationValidator witnessNavState 0 1).1 = true ∧
    ((selectedLoginsOf witnessNavState).length ≠ 0 ∧
     witnessNavState.isLoginMigrationTargetValidated = true ∧
     (∀ login ∈ selectedLoginsOf witnessNavState,
       jsSetHas witnessNavState.successfullyValidatedLogins login.loginName = true) ∧
     (witnessNavState.loginMig.selectedWindowsLogins = true →
       witnessNavState.aadDomainName ≠ "" ∧
       witnessNavState.successfullyValidatedEntraDomain =
         some witnessNavState.aadDomainName)) :=
  ⟨(navigation_validator_gates_forward witnessNavState 0 1).1 (by omega),
   (navigation_validator_gates_forward witnessNavState 1 1).2 (by omega) (by decide)⟩

/-- Claim C6: in every call of `_loadLoginList`, each of the two fetches is
started at most once and runs to completion (no retry or cancellation), and
the source fetch, when it runs, starts and completes before the target fetch
is started (every source-fetch event lies before the first target-fetch
start). -/
theorem loadLoginList_fetch_sequencing (runQuery collectedSource collectedTarget : Bool) :
    ((loadLoginListTrace runQuery collectedSource collectedTarget).count
        LoadEvent.sourceFetchStart ≤ 1 ∧
     (loadLoginListTrace runQuery collectedSource collectedTarget).count
        LoadEvent.targetFetchStart ≤ 1) ∧
    ((loadLoginListTrace runQuery collectedSource collectedTarget).count
        LoadEvent.sourceFetchEnd =
      (loadLoginListTrace runQuery collectedSource collectedTarget).count
        LoadEvent.sourceFetchStart ∧
     (loadLoginListTrace runQuery collectedSource collectedTarget).count
        LoadEvent.targetFetchEnd =
      (loadLoginListTrace runQuery collectedSource collectedTarget).count
        LoadEvent.targetFetchStart) ∧
    (LoadEvent.sourceFetchStart ∈ loadLoginListTrace runQuery collectedSource collectedTarget →
      LoadEvent.sourceFetchStart ∈
        (loadLoginListTrace runQuery collectedSource collectedTarget).takeWhile
          (fun ev => ev != LoadEvent.targetFetchStart) ∧
      LoadEvent.sourceFetchEnd ∈
        (loadLoginListTrace runQuery collectedSource collectedTarget).takeWhile
          (fun ev => ev != LoadEvent.targetFetchStart)) := by
  cases runQuery <;> cases collectedSource <;> cases collectedTarget <;> decide

/-- Witness for C6: at a refresh-button call (`runQuery = true`) with both
collections already done, the source fetch starts and completes before the
first target-fetch start. -/
theorem loadLoginList_fetch_sequencing_witness :
    LoadEvent.sourceFetchStart ∈
      (loadLoginListTrace true true true).takeWhile
        (fun ev => ev != LoadEvent.targetFetchStart) ∧
    LoadEvent.sourceFetchEnd ∈
      (loadLoginListTrace true true true).takeWhile
        (fun ev => ev != LoadEvent.targetFetchStart) :=
  (loadLoginList_fetch_sequencing true true true).2.2 (by decide)

/-- Claim C7: the validate-custom-button click handler opens the
pre-migration validation dialog exactly when the list of logins selected for
migration is non-empty; when that list is empty it sets the wizard error
message and returns without opening the dialog and without further state
changes, and when it is non-empty it opens the dialog leaving the wizard
message untouched. -/
theorem validate_button_requires_selection (loginsForMigration : List JsLoginRecord)
    (message : WizardMessage) :
    ((validateLoginPreMigrationClick loginsForMigration message).2 =
        DialogAction.openedValidationDialog ↔ loginsForMigration ≠ []) ∧
    (loginsForMigration = [] →
      validateLoginPreMigrationClick loginsForMigration message =
        ({ level := MessageLevel.error, text := SELECT_LOGIN_TO_CONTINUE },
         DialogAction.noDialog)) ∧
    (loginsForMigration ≠ [] →
      validateLoginPreMigrationClick loginsForMigration message =
        (message, DialogAction.openedValidationDialog)) := by
  cases loginsForMigration with
  | nil => simp [validateLoginPreMigrationClick]
  | cons hd tl => simp [validateLoginPreMigrationClick]

/-- Witness for C7: with an empty selection the handler sets the wizard
error message and does not open the dialog. -/
theorem validate_button_requires_selection_witness :
    validateLoginPreMigrationClick [] witnessMessage =
      ({ level := MessageLevel.error, text := SELECT_LOGIN_TO_CONTINUE },
       DialogAction.noDialog) :=
  (validate_button_requires_selection [] witnessMessage).2.1 rfl

theorem jsStrEqLower_some_str_iff (a : Option Cell) (name : String) :
    jsStrEqLower a (some (Cell.str name)) = true ↔
      ∃ s, a = some (Cell.str s) ∧ s.toLower = name.toLower := by
  cases a with
  | none => simp [jsStrEqLower, jsToLowerCell]
  | some c =>
    cases c with
    | bool b => simp [jsStrEqLower, jsToLowerCell]
    | str s => simp [jsStrEqLower, jsToLowerCell, toLower_eq_iff]
    | hyperlink ic ti => simp [jsStrEqLower, jsToLowerCell]

/-- Claim C8: after `_filterTableList` runs with any search string and any
prior selection, a displayed row is marked selected exactly when its login
name equals, under case-insensitive comparison, the name of some login of
the selection in effect before filtering — the passed selected list when one
was passed, otherwise the current table selection. -/
theorem filter_preserves_selection_by_login_name (vals : List Row) (value : String)
    (selectedList : Option (List JsLoginRecord)) (currentSelection : List JsLoginRecord)
    (rowIdx : Nat) (name : String)
    (hname : (((filterTableListStep vals value selectedList currentSelection).1.getD
        rowIdx []).get? 1) = some (Cell.str name)) :
    rowIdx ∈ (filterTableListStep vals value selectedList currentSelection).2 ↔
      (rowIdx < (filterTableListStep vals value selectedList currentSelection).1.length ∧
       ∃ sl ∈ selectedList.getD currentSelection, ∃ slName,
         sl.loginName = some (Cell.str slName) ∧ slName.toLower = name.toLower) := by
  simp only [filterTableListStep] at hname ⊢
  simp only [restoredSelection, List.mem_filter, List.mem_range]
  refine and_congr_right fun _ => ?_
  rw [hname]
  simp only [List.any_eq_true, jsStrEqLower_some_str_iff]

/-- Witness for C8: at a concrete one-row table with an empty search string
and a passed selection containing the same login name in different case, row
0 is marked selected. -/
theorem filter_preserves_selection_by_login_name_witness :
    0 ∈ (filterTableListStep [witnessRow] "" (some [witnessSelectedRecord]) []).2 ↔
      (0 < (filterTableListStep [witnessRow] "" (some [witnessSelectedRecord]) []).1.length ∧
       ∃ sl ∈ (some [witnessSelectedRecord]).getD ([] : List JsLoginRecord), ∃ slName,
         sl.loginName = some (Cell.str slName) ∧
         slName.toLower = sampleLoginName.toLower) :=
  filter_preserves_selection_by_login_name [witnessRow] "" (some [witnessSelectedRecord])
    [] 0 sampleLoginName (by decide)

theorem updateNextButtonStep_preserves (st : SelectionUIState) :
    (updateNextButtonStep st).aadContainerDisplayed = st.aadContainerDisplayed ∧
    (updateNextButtonStep st).loginTableHeight = st.loginTableHeight ∧
    (updateNextButtonStep st).loginMig = st.loginMig := by
  unfold updateNextButtonStep
  split <;> simp

theorem refreshAADInputBoxStep_spec (st : SelectionUIState) :
    ((refreshAADInputBoxStep st).aadContainerDisplayed = true ↔
      (refreshAADInputBoxStep st).loginMig.selectedWindowsLogins = true) ∧
    ((refreshAADInputBoxStep st).aadContainerDisplayed = true →
      (refreshAADInputBoxStep st).loginTableHeight = 600) ∧
    ((refreshAADInputBoxStep st).aadContainerDisplayed = false →
      (refreshAADInputBoxStep st).loginTableHeight = 650) := by
  unfold refreshAADInputBoxStep
  cases h : st.loginMig.selectedWindowsLogins <;> simp [h]

theorem aad_height_general (st0 : SelectionUIState) :
    ((updateNextButtonStep (refreshAADInputBoxStep st0)).aadContainerDisplayed = true ↔
      (updateNextButtonStep (refreshAADInputBoxStep st0)).loginMig.selectedWindowsLogins
        = true) ∧
    ((updateNextButtonStep (refreshAADInputBoxStep st0)).aadContainerDisplayed = true →
      (updateNextButtonStep (refreshAADInputBoxStep st0)).loginTableHeight = 600) ∧
    ((updateNextButtonStep (refreshAADInputBoxStep st0)).aadContainerDisplayed = false →
      (updateNextButtonStep (refreshAADInputBoxStep st0)).loginTableHeight = 650) := by
  obtain ⟨h1, h2, h3⟩ := updateNextButtonStep_preserves (refreshAADInputBoxStep st0)
  rw [h1, h2, h3]
  exact refreshAADInputBoxStep_spec st0

/-- Claim C9: after a selection-change event is handled by
`updateValuesOnSelection`, the Entra domain-name input container is
displayed exactly when the freshly stored selection of logins for migration
includes windows logins (`selectedWindowsLogins`), and the login table height
is 600 when the container is shown and 650 when it is hidden. -/
theorem aad_input_follows_windows_selection (st : SelectionUIState) :
    ((updateValuesOnSelectionStep st).aadContainerDisplayed = true ↔
      (updateValuesOnSelectionStep st).loginMig.selectedWindowsLogins = true) ∧
    ((updateValuesOnSelectionStep st).aadContainerDisplayed = true →
      (updateValuesOnSelectionStep st).loginTableHeight = 600) ∧
    ((updateValuesOnSelectionStep st).aadContainerDisplayed = false →
      (updateValuesOnSelectionStep st).loginTableHeight = 650) := by
  unfold updateValuesOnSelectionStep
  exact aad_height_general _

/-- Witness for C9: at the concrete page state `witnessSelectionState`, whose
single selected login is not a windows login, the handler hides the Entra
container and sets the table height to 650. -/
theorem aad_input_follows_windows_selection_witness :
    (updateValuesOnSelectionStep witnessSelectionState).loginTableHeight = 650 :=
  (aad_input_follows_windows_selection witnessSelectionState).2.2 (by decide)

/-- Claim C10: `onPageEnter` shows the validate custom button and marks the
page current, `onPageLeave` hides the button and marks the page not current,
so after either lifecycle transition the button is hidden exactly when the
page is not the current page. -/
theorem validate_button_visibility_tracks_currency (st : SelectionUIState) :
    (onPageEnterStep st).validateButtonHidden = false ∧
    (onPageEnterStep st).isCurrentPage = true ∧
    (onPageLeaveStep st).validateButtonHidden = true ∧
    (onPageLeaveStep st).isCurrentPage = false ∧
    (onPageEnterStep st).validateButtonHidden = !(onPageEnterStep st).isCurrentPage ∧
    (onPageLeaveStep st).validateButtonHidden = !(onPageLeaveStep st).isCurrentPage := by
  simp [onPageEnterStep, onPageLeaveStep, resetNextButtonStep, updateNextButtonStep]

end LoginSelector
